import Mathlib

/-!
Shallow embedding of the github OAuth provider from `src/oauth/github/github.go`
(package `github`, qor-style auth provider), together with the parts of its
library dependencies (`dgrijalva/jwt-go`, gorm-style persistence) that the
provider's control flow depends on.  Definitions are translated from the Go
source; the line numbers in the comments refer to `src/oauth/github/github.go`.
-/

namespace Github

/-! ### JWT model (`dgrijalva/jwt-go` v3 as used at lines 70-82 and 161-163)

The provider signs and parses JWTs with an HMAC signing method
(`session.Auth.Config.SigningMethod`) and a byte-string secret
(`session.Auth.Config.SignedString`).  An HMAC signature is a MAC over the
encoded header (which determines the algorithm) and the encoded claims, keyed
by the secret; we model it as the triple of those inputs, i.e. we model HMAC
as a perfect MAC: a signature verifies under (method, claims, key) exactly
when it was produced from the same (method, claims, key). -/

/-- HMAC signing methods offered by jwt-go (`jwt.SigningMethodHS256` etc.).
`Token.Method` equality at line 72 is Go interface equality on these
singletons, modelled as equality of this type. -/
inductive SigningMethod
  | HS256
  | HS384
  | HS512
deriving DecidableEq

/-- An HMAC-SHA signature: determined by the algorithm (encoded in the JWT
header), the claim set (the encoded payload) and the key. -/
structure Signature where
  method : SigningMethod
  claims : List (String × String)
  key : String
deriving DecidableEq

/-- `method.Sign(signingString, key)`: produce the MAC over header+payload. -/
def methodSign (m : SigningMethod) (claims : List (String × String)) (key : String) :
    Signature :=
  { method := m, claims := claims, key := key }

/-- A structurally well-formed JWT on the wire (three dot-separated segments):
the header's `alg`, the decoded claim set (an association list of claim name
to value; the provider only ever sets `"sub"`), and the signature segment. -/
structure WireToken where
  alg : SigningMethod
  claims : List (String × String)
  sig : Signature
deriving DecidableEq

/-- The dynamic type of `Token.Claims` after parsing.  `jwt.Parse` (the
package-level function used at line 71) always decodes into `jwt.MapClaims`;
`*jwt.StandardClaims` only appears when a caller uses `ParseWithClaims` with
that type.  Both variants are kept so that the type assertion at line 78 can
be modelled faithfully. -/
inductive TokenClaims
  | mapClaims (m : List (String × String))
  | standardClaims (subject : String)
deriving DecidableEq

/-- The `*jwt.Token` returned by `jwt.Parse`: method from the header, the
decoded claims, and the `Valid` flag (true iff the claims validated and the
signature verified). -/
structure ParsedToken where
  method : SigningMethod
  claims : TokenClaims
  valid : Bool
deriving DecidableEq

/-- The error returned by `jwt.Parse` when parsing a structurally well-formed
token fails:
* `unexpectedSigningMethod`: the key function at lines 72-74 returned
  `fmt.Errorf("unexpected signing method")`; jwt-go wraps it in a
  `ValidationError` (`ValidationErrorUnverifiable`) and skips signature
  verification;
* `signatureInvalid`: the HMAC check failed (`ValidationErrorSignatureInvalid`).
These are distinct error values, and both are distinct from
`auth.ErrUnauthorized` and the other framework errors. -/
inductive JWTError
  | unexpectedSigningMethod
  | signatureInvalid
deriving DecidableEq

/-- The distinct error values the default authorize handler can return.
`unauthorized` is `auth.ErrUnauthorized`, `invalidAccount` is
`auth.ErrInvalidAccount`, `jwt e` is the `jwt.Parse` error returned verbatim
at line 126, `issuer` is an error propagated from the token exchange or the
profile fetch (lines 87, 93), `recordNotFound` is the gorm error from
`tx.First` at line 105, `createFailed` is a gorm error from `tx.Create` or
`tx.FirstOrCreate` (lines 113, 122). -/
inductive AuthError
  | unauthorized
  | invalidAccount
  | jwt (e : JWTError)
  | issuer
  | recordNotFound
  | createFailed
deriving DecidableEq

/-- The pieces of `*auth.Session` the provider reads: the signing method and
secret (`session.Auth.Config.SigningMethod`, `.SignedString`), whether a user
model is configured (`session.Auth.Config.UserModel != nil`), and the
framework's callback-path constructor (`session.AuthURL`). -/
structure Session where
  signingMethod : SigningMethod
  signedString : String
  userModel : Bool
  authURL : String → String

/-- `jwt.Parse(state, keyfunc)` with the key function of lines 71-76: reject
a header algorithm different from `session.Auth.Config.SigningMethod`,
otherwise hand back `[]byte(session.Auth.Config.SignedString)` as the HMAC
key.  The package-level `jwt.Parse` decodes the claims into `jwt.MapClaims`;
the provider's tokens carry only a `"sub"` claim, so `MapClaims.Valid()`
(which inspects only `exp`/`iat`/`nbf`) never fails and `Token.Valid` is
true exactly when the signature verifies. -/
def jwtParse (state : WireToken) (session : Session) :
    ParsedToken × Option JWTError :=
  if state.alg = session.signingMethod then
    if state.sig = methodSign state.alg state.claims session.signedString then
      ({ method := state.alg, claims := TokenClaims.mapClaims state.claims, valid := true },
       none)
    else
      ({ method := state.alg, claims := TokenClaims.mapClaims state.claims, valid := false },
       some JWTError.signatureInvalid)
  else
    ({ method := state.alg, claims := TokenClaims.mapClaims state.claims, valid := false },
     some JWTError.unexpectedSigningMethod)

/-- Lines 70-82 of the default authorize handler: parse the `state` query
parameter, run the type assertion
`claims, ok := token.Claims.(*jwt.StandardClaims)` and, when it succeeds and
the token is invalid or the subject is not `"state"`, return
`auth.ErrUnauthorized`; otherwise proceed to the code exchange when the parse
error is nil (`Except.ok ()`) and return the parse error verbatim when it is
not (line 126). -/
def stateCheck (state : WireToken) (session : Session) : Except AuthError Unit :=
  let parsed := jwtParse state session
  let token := parsed.1
  let err := parsed.2
  match token.claims with
  | TokenClaims.standardClaims subj =>
      if token.valid = false ∨ subj ≠ "state" then
        Except.error AuthError.unauthorized
      else
        match err with
        | none => Except.ok ()
        | some e => Except.error (AuthError.jwt e)
  | TokenClaims.mapClaims _ =>
      match err with
      | none => Except.ok ()
      | some e => Except.error (AuthError.jwt e)

/-- Lines 161-163 of `Login`:
`jwt.NewWithClaims(session.Auth.Config.SigningMethod,
jwt.StandardClaims{Subject: "state"})` serialises to the payload
`{"sub":"state"}`, and `SignedString([]byte(session.Auth.Config.SignedString))`
signs it with the configured method and secret. -/
def loginStateToken (session : Session) : WireToken :=
  { alg := session.signingMethod,
    claims := [("sub", "state")],
    sig := methodSign session.signingMethod [("sub", "state")] session.signedString }

/-! ### Provider construction (lines 17-20, 28-59) -/

/-- Package-level default `AuthorizeURL` (line 18). -/
def AuthorizeURL : String := "https://github.com/login/oauth/authorize"

/-- Package-level default `TokenURL` (line 19). -/
def TokenURL : String := "https://github.com/login/oauth/access_token"

/-- The provider `Config` (lines 28-36).  Zero values model Go's zero-valued
fields.  The optional `AuthorizeHandler` override is not modelled: all claims
concern the default handler installed at lines 61-128. -/
structure Config where
  clientID : String := ""
  clientSecret : String := ""
  authorizeURL : String := ""
  tokenURL : String := ""
  redirectURL : String := ""
  scopes : List String := []
deriving DecidableEq

/-- Construction failure (lines 45-51): the Go code panics with
`errors.New("Github's ClientID can't be blank")` respectively
`errors.New("Github's ClientSecret can't be blank")`; either way construction
aborts and no usable provider is returned, modelled as `Except.error`. -/
inductive ConfigError
  | blankClientID
  | blankClientSecret
deriving DecidableEq

/-- `New(config)` (lines 38-59, construction part): a nil config is replaced
by `&Config{}`; a blank `ClientID` or `ClientSecret` aborts construction;
blank `AuthorizeURL`/`TokenURL` are defaulted to the package-level URLs.  The
result is the provider's effective `Config`. -/
def New (config : Option Config) : Except ConfigError Config :=
  let cfg := config.getD {}
  if cfg.clientID = "" then
    Except.error ConfigError.blankClientID
  else if cfg.clientSecret = "" then
    Except.error ConfigError.blankClientSecret
  else
    Except.ok
      { cfg with
        authorizeURL := if cfg.authorizeURL = "" then AuthorizeURL else cfg.authorizeURL,
        tokenURL := if cfg.tokenURL = "" then TokenURL else cfg.tokenURL }

/-- `GithubProvider.GetName` (lines 133-135). -/
def GetName : String := "github"

/-! ### OAuth client configuration (lines 138-158) -/

/-- The scheme and host of the inbound `*http.Request` (`req.URL.Scheme`,
`req.Host`); the query parameters `state` and `code` are passed to the
handler separately. -/
structure Request where
  scheme : String
  host : String
deriving DecidableEq

/-- The `*oauth2.Config` built per request. -/
structure OAuth2Config where
  clientID : String
  clientSecret : String
  authURL : String
  tokenURL : String
  redirectURL : String
  scopes : List String

/-- `OAuthConfig(req, session)` (lines 138-158), translated verbatim: the
scheme variable is replaced by the string `"http://"` when `req.URL.Scheme`
is empty, and the redirect URL is the concatenation
`scheme + req.Host + session.AuthURL("github/callback")`.  Note that the
static `config.RedirectURL` field is never read here. -/
def OAuthConfig (cfg : Config) (req : Request) (session : Session) : OAuth2Config :=
  let scheme := req.scheme
  let scheme := if scheme = "" then "http://" else scheme
  { clientID := cfg.clientID,
    clientSecret := cfg.clientSecret,
    authURL := cfg.authorizeURL,
    tokenURL := cfg.tokenURL,
    redirectURL := scheme ++ req.host ++ session.authURL "github/callback",
    scopes := cfg.scopes }

/-! ### Persistence model (gorm as used at lines 99-123)

`auth_identity.Basic` carries `Provider`, `UID` and `UserID` (the other
fields stay zero-valued throughout the handler and are omitted).  gorm's
`Where(struct)` builds its condition from the non-zero fields of the struct
only; `Scan` with a not-found indicator, `First` by primary key, `Create` and
`FirstOrCreate` are modelled over an explicit store state.  Backend failures
of `Create`/`FirstOrCreate` are modelled by fault-injection flags in the
state. -/

/-- The `auth_identity.Basic` fields the handler reads and writes
(`Provider`, `UID`, `UserID`). -/
structure AuthInfo where
  provider : String
  uid : String
  userID : String
deriving DecidableEq

/-- gorm `Where(cond)` with a struct condition: a row matches when it agrees
with `cond` on every non-zero (non-empty) field of `cond`. -/
def whereMatch (cond r : AuthInfo) : Bool :=
  (cond.provider == "" || r.provider == cond.provider) &&
  (cond.uid == "" || r.uid == cond.uid) &&
  (cond.userID == "" || r.userID == cond.userID)

/-- gorm error from a failed `Create`/`FirstOrCreate`. -/
inductive GormErr
  | createFailed
deriving DecidableEq

/-- The database handle `tx`: the LocalIdentity rows, the LocalUser rows
(each represented by its generated primary key), the next generated primary
key, and fault-injection flags for the two insert statements the handler
issues. -/
structure DBState where
  identities : List AuthInfo
  users : List Nat
  nextUserPK : Nat
  userCreateFails : Bool
  identityCreateFails : Bool
deriving DecidableEq

/-- `tx.Model(authIdentity).Where(authInfo).Scan(&authInfo)` (line 99): find
the first row matching the non-zero fields of the condition;
`RecordNotFound()` is true exactly when the result is `none`, and on a hit
`authInfo` is overwritten with the row. -/
def scanIdentity (db : DBState) (cond : AuthInfo) : Option AuthInfo :=
  db.identities.find? (fun r => whereMatch cond r)

/-- `tx.Where(authInfo).FirstOrCreate(authIdentity)` (line 122): return the
first matching row if one exists; otherwise insert a row carrying the
condition's attributes (or fail, leaving the store unchanged, when the
backend errors).  The third component is the resulting populated
`authIdentity` record. -/
def firstOrCreate (db : DBState) (cond : AuthInfo) :
    Option GormErr × DBState × AuthInfo :=
  match scanIdentity db cond with
  | some r => (none, db, r)
  | none =>
      if db.identityCreateFails then
        (some GormErr.createFailed, db, cond)
      else
        (none, { db with identities := db.identities ++ [cond] }, cond)

/-- The principal returned by the handler: either a LocalIdentity record
(found or freshly created `auth_identity` row) or a LocalUser row, identified
by its primary key. -/
inductive Principal
  | identity (a : AuthInfo)
  | user (pk : Nat)
deriving DecidableEq

/-- Lines 96-123: the identity-linking part of the default authorize handler,
entered with the profile's numeric id in hand.
`authInfo.Provider = provider.GetName(); authInfo.UID = fmt.Sprint(*user.ID)`
(lines 96-97); then look the identity up by its non-zero fields
(provider, uid).  If found: with a user model, an empty `UserID` yields
`auth.ErrInvalidAccount`, otherwise the user is loaded by `authInfo.UserID`
(line 105) and returned — if the load fails its error is returned; without a
user model the scanned identity itself is returned (line 108).  If not found:
with a user model, a fresh empty user row is created (line 113) — on failure
that error is returned with nothing inserted — and `authInfo.UserID` is set
to the string form of its generated primary key (line 114); then
`FirstOrCreate` inserts the identity (line 122) and `(currentUser, err)` is
returned (line 123): the error, if any, is propagated while the user row
created at line 113 stays in the store. -/
def linker (providerName : String) (id : Int) (userModel : Bool) (db : DBState) :
    Except AuthError Principal × DBState :=
  let authInfo : AuthInfo := { provider := providerName, uid := toString id, userID := "" }
  match scanIdentity db authInfo with
  | some found =>
      if userModel then
        if found.userID = "" then
          (Except.error AuthError.invalidAccount, db)
        else
          match db.users.find? (fun u => toString u == found.userID) with
          | some u => (Except.ok (Principal.user u), db)
          | none => (Except.error AuthError.recordNotFound, db)
      else
        (Except.ok (Principal.identity found), db)
  | none =>
      if userModel then
        if db.userCreateFails then
          (Except.error AuthError.createFailed, db)
        else
          let pk := db.nextUserPK
          let db1 := { db with users := db.users ++ [pk], nextUserPK := pk + 1 }
          let authInfo1 := { authInfo with userID := toString pk }
          match firstOrCreate db1 authInfo1 with
          | (none, db2, _) => (Except.ok (Principal.user pk), db2)
          | (some _, db2, _) => (Except.error AuthError.createFailed, db2)
      else
        match firstOrCreate db authInfo with
        | (none, db2, row) => (Except.ok (Principal.identity row), db2)
        | (some _, db2, _) => (Except.error AuthError.createFailed, db2)

/-! ### The full default authorize handler (lines 61-128) -/

/-- The outbound HTTP calls the handler can make: the authorization-code
exchange against the token endpoint (line 84) and the profile fetch against
the issuer's authenticated-user endpoint (line 91). -/
inductive HttpCall
  | tokenExchange (url : String) (code : String)
  | fetchProfile
deriving DecidableEq

/-- The default `AuthorizeHandler` installed at lines 61-128.  `state` and
`code` are the request's query parameters; `ex` and `fu` are oracles for the
issuer's two endpoints (`oauthCfg.Exchange` returning an access token, and
`client.Users.Get("")` returning the profile's numeric id), each able to
fail with an opaque issuer error.  The third component of the result records
the outbound HTTP calls actually performed, in order. -/
def authorizeHandler (cfg : Config) (session : Session) (req : Request)
    (state : WireToken) (code : String)
    (ex : String → String → Except Unit String)
    (fu : String → Except Unit Int)
    (db : DBState) :
    Except AuthError Principal × DBState × List HttpCall :=
  match stateCheck state session with
  | Except.error e => (Except.error e, db, [])
  | Except.ok _ =>
      let oauthCfg := OAuthConfig cfg req session
      match ex oauthCfg.tokenURL code with
      | Except.error _ =>
          (Except.error AuthError.issuer, db, [HttpCall.tokenExchange oauthCfg.tokenURL code])
      | Except.ok tkn =>
          match fu tkn with
          | Except.error _ =>
              (Except.error AuthError.issuer, db,
               [HttpCall.tokenExchange oauthCfg.tokenURL code, HttpCall.fetchProfile])
          | Except.ok id =>
              let r := linker GetName id session.userModel db
              (r.1, r.2,
               [HttpCall.tokenExchange oauthCfg.tokenURL code, HttpCall.fetchProfile])



/-! ### Concrete values used by witnesses and concrete evaluations -/

/-- A concrete session: HS256 signing, secret `"secret"`, no user model,
framework callback paths under `/auth/`. -/
def sessDemo : Session :=
  { signingMethod := SigningMethod.HS256, signedString := "secret",
    userModel := false, authURL := fun s => "/auth/" ++ s }

/-- A concrete effective provider configuration (as produced by `New` from a
config carrying only the credentials). -/
def cfgDemo : Config :=
  { clientID := "x", clientSecret := "y",
    authorizeURL := AuthorizeURL, tokenURL := TokenURL }

/-- `cfgDemo` with a non-empty static `RedirectURL`. -/
def cfgStatic : Config :=
  { cfgDemo with redirectURL := "https://static.example/cb" }

/-! ### Claims -/

/-- C1 (counterexample): with a non-empty static `Config.RedirectURL`, the
redirect URL built by `OAuthConfig` is not the static URL — the field is
never read at lines 138-158. -/
theorem c1_static_redirect_counterexample :
    cfgStatic.redirectURL ≠ "" ∧
    (OAuthConfig cfgStatic ⟨"https", "example.com"⟩ sessDemo).redirectURL
      ≠ cfgStatic.redirectURL :=
  ⟨by decide, by decide⟩

/-- C1 (amended): for every inbound request the redirect URL ignores
`Config.RedirectURL` and is composed from the request as
`scheme' ++ host ++ callbackPath`, where `scheme'` is the literal
`"http://"` when the request's scheme is empty and the raw scheme string
otherwise; in particular an empty scheme yields a redirect URL beginning
with `"http://"`. -/
theorem c1_redirect_always_composed (cfg : Config) (req : Request) (session : Session) :
    (OAuthConfig cfg req session).redirectURL
      = (if req.scheme = "" then "http://" else req.scheme) ++ req.host
          ++ session.authURL "github/callback" ∧
    (req.scheme = "" →
      (OAuthConfig cfg req session).redirectURL
        = "http://" ++ req.host ++ session.authURL "github/callback") := by
  refine ⟨rfl, fun h => ?_⟩
  simp [OAuthConfig, h]

/-- C1 witness: a request with empty scheme and host `example.com` yields
the redirect URL `http://example.com/auth/github/callback`. -/
theorem c1_redirect_always_composed_witness :
    (OAuthConfig cfgDemo ⟨"", "example.com"⟩ sessDemo).redirectURL
      = "http://example.com/auth/github/callback" :=
  (c1_redirect_always_composed cfgDemo ⟨"", "example.com"⟩ sessDemo).2 rfl

/-- C2 (code bug): a state token signed with the configured method and
secret but with subject `"evil"` passes the state check and the handler
proceeds all the way to the code exchange and identity creation.  The
subject check at line 78 sits behind the type assertion
`token.Claims.(*jwt.StandardClaims)`, which always fails because `jwt.Parse`
decodes into `jwt.MapClaims`, so a valid-signature token is never rejected
for a wrong subject, contradicting the claim that it is rejected with
`Unauthorized`. -/
theorem c2_subject_check_dead :
    stateCheck
        ⟨SigningMethod.HS256, [("sub", "evil")],
         methodSign SigningMethod.HS256 [("sub", "evil")] "secret"⟩ sessDemo
      = Except.ok () ∧
    authorizeHandler cfgDemo sessDemo ⟨"https", "example.com"⟩
        ⟨SigningMethod.HS256, [("sub", "evil")],
         methodSign SigningMethod.HS256 [("sub", "evil")] "secret"⟩ "code0"
        (fun _ _ => Except.ok "tkn") (fun _ => Except.ok 5) ⟨[], [], 1, false, false⟩
      = (Except.ok (Principal.identity ⟨"github", "5", ""⟩),
         ⟨[⟨"github", "5", ""⟩], [], 1, false, false⟩,
         [HttpCall.tokenExchange TokenURL "code0", HttpCall.fetchProfile]) :=
  ⟨rfl, rfl⟩

/-- C3 (code bug): on a callback whose state token was minted with secret
`"s1"` while the session is configured with secret `"s2"`, the handler makes
no HTTP call (the trace is empty) and returns the `jwt.Parse`
signature-validation error — not `auth.ErrUnauthorized`, because the
`Unauthorized` return at line 79 sits behind the always-failing
`*jwt.StandardClaims` type assertion. -/
theorem c3_forged_state_error_value :
    authorizeHandler cfgDemo
        ⟨SigningMethod.HS256, "s2", false, fun s => "/auth/" ++ s⟩
        ⟨"https", "example.com"⟩
        (loginStateToken ⟨SigningMethod.HS256, "s1", false, fun s => "/auth/" ++ s⟩)
        "code0" (fun _ _ => Except.ok "tkn") (fun _ => Except.ok 5)
        ⟨[], [], 1, false, false⟩
      = (Except.error (AuthError.jwt JWTError.signatureInvalid),
         ⟨[], [], 1, false, false⟩, ([] : List HttpCall)) ∧
    AuthError.jwt JWTError.signatureInvalid ≠ AuthError.unauthorized :=
  ⟨rfl, by decide⟩

/-- C4: round-trip — verifying a state token minted by `Login` with the
session's own signing method and secret succeeds, and the callback handler
then proceeds to the authorization-code exchange (the first outbound HTTP
call is the token-endpoint exchange for the request's code). -/
theorem c4_state_roundtrip (cfg : Config) (session : Session) (req : Request)
    (code : String) (ex : String → String → Except Unit String)
    (fu : String → Except Unit Int) (db : DBState) :
    stateCheck (loginStateToken session) session = Except.ok () ∧
    (authorizeHandler cfg session req (loginStateToken session) code ex fu db).2.2.head?
      = some (HttpCall.tokenExchange (OAuthConfig cfg req session).tokenURL code) := by
  have h1 : stateCheck (loginStateToken session) session = Except.ok () := by
    simp [stateCheck, jwtParse, loginStateToken, methodSign]
  refine ⟨h1, ?_⟩
  simp only [authorizeHandler, h1]
  cases hex : ex (OAuthConfig cfg req session).tokenURL code with
  | error e => simp [hex]
  | ok tkn =>
    cases hfu : fu tkn with
    | error e => simp [hex, hfu]
    | ok id => simp [hex, hfu]

/-- C5: when a LocalIdentity for `(provider, uid)` exists with an empty
`userId` and a user model is configured, the handler fails with
`InvalidAccount` and the store is unchanged (no LocalUser and no
LocalIdentity created). -/
theorem c5_orphan_identity_invalid_account (pn : String) (id : Int) (db : DBState)
    (r : AuthInfo) (h : scanIdentity db ⟨pn, toString id, ""⟩ = some r)
    (h2 : r.userID = "") :
    linker pn id true db = (Except.error AuthError.invalidAccount, db) := by
  simp only [linker]
  rw [h]
  simp [h2]

/-- C5 witness: the orphan-identity scenario of the spec — a pre-seeded
`{github, "9", ""}` identity with a user model configured fails with
`InvalidAccount` and creates no rows. -/
theorem c5_orphan_identity_witness :
    linker "github" 9 true ⟨[⟨"github", "9", ""⟩], [], 1, false, false⟩
      = (Except.error AuthError.invalidAccount,
         ⟨[⟨"github", "9", ""⟩], [], 1, false, false⟩) :=
  c5_orphan_identity_invalid_account "github" 9 _ ⟨"github", "9", ""⟩ rfl rfl

/-- C6: with no user model configured, the principal is the LocalIdentity:
a returning login yields the record found for `(provider, uid)` with the
store unchanged, and a first-time login creates and returns
`{provider := "github", uid := decimal id, userID := ""}`. -/
theorem c6_no_user_model_principal (id : Int) (db : DBState) :
    (∀ r, scanIdentity db ⟨GetName, toString id, ""⟩ = some r →
        linker GetName id false db = (Except.ok (Principal.identity r), db)) ∧
    (db.identityCreateFails = false →
      scanIdentity db ⟨GetName, toString id, ""⟩ = none →
        linker GetName id false db
          = (Except.ok (Principal.identity ⟨GetName, toString id, ""⟩),
             { db with identities := db.identities ++ [⟨GetName, toString id, ""⟩] })) := by
  constructor
  · intro r h
    simp only [linker]
    rw [h]
    simp
  · intro hflag h
    simp only [linker, firstOrCreate]
    rw [h]
    simp [hflag]

/-- C6 witness: first-time login with profile id 42 creates and returns
`{github, "42", ""}`; a returning login with a seeded `{github, "7", "123"}`
returns that record unchanged. -/
theorem c6_no_user_model_witness :
    linker GetName 42 false ⟨[], [], 1, false, false⟩
      = (Except.ok (Principal.identity ⟨"github", "42", ""⟩),
         ⟨[⟨"github", "42", ""⟩], [], 1, false, false⟩) ∧
    linker GetName 7 false ⟨[⟨"github", "7", "123"⟩], [], 1, false, false⟩
      = (Except.ok (Principal.identity ⟨"github", "7", "123"⟩),
         ⟨[⟨"github", "7", "123"⟩], [], 1, false, false⟩) :=
  ⟨(c6_no_user_model_principal 42 ⟨[], [], 1, false, false⟩).2 rfl rfl,
   (c6_no_user_model_principal 7 ⟨[⟨"github", "7", "123"⟩], [], 1, false, false⟩).1
     ⟨"github", "7", "123"⟩ rfl⟩

/-- A row matching the stricter condition (with a non-empty `userID`
constraint) also matches the loose `(provider, uid)` condition. -/
lemma whereMatch_mono (p u w : String) (r : AuthInfo)
    (h : whereMatch ⟨p, u, w⟩ r = true) : whereMatch ⟨p, u, ""⟩ r = true := by
  simp only [whereMatch, Bool.and_eq_true] at h ⊢
  refine ⟨h.1, ?_⟩
  simp

/-- If no row matches `(provider, uid)`, none matches `(provider, uid,
userID)` either. -/
lemma find_none_strengthen (l : List AuthInfo) (p u w : String)
    (h : l.find? (fun r => whereMatch ⟨p, u, ""⟩ r) = none) :
    l.find? (fun r => whereMatch ⟨p, u, w⟩ r) = none := by
  rw [List.find?_eq_none] at h ⊢
  intro x hx hmatch
  exact h x hx (whereMatch_mono p u w x hmatch)

/-- C7: on first-time login with a user model, the empty LocalUser is
created first: if that creation fails the handler returns the error with the
store unchanged (no LocalIdentity created), and if it succeeds but the
subsequent LocalIdentity creation fails, the error is returned while the
freshly created LocalUser row remains in the store (no compensating
delete). -/
theorem c7_user_creation_failures (id : Int) (db : DBState)
    (h : scanIdentity db ⟨GetName, toString id, ""⟩ = none) :
    (db.userCreateFails = true →
        linker GetName id true db = (Except.error AuthError.createFailed, db)) ∧
    (db.userCreateFails = false → db.identityCreateFails = true →
        linker GetName id true db
          = (Except.error AuthError.createFailed,
             { db with users := db.users ++ [db.nextUserPK],
                       nextUserPK := db.nextUserPK + 1 })) := by
  constructor
  · intro hu
    simp only [linker]
    rw [h]
    simp [hu]
  · intro hu hi
    have h1 : db.identities.find?
        (fun r => whereMatch ⟨GetName, toString id, ""⟩ r) = none := by
      simpa [scanIdentity] using h
    have h2 : db.identities.find?
        (fun r => whereMatch ⟨GetName, toString id, toString db.nextUserPK⟩ r) = none :=
      find_none_strengthen db.identities GetName (toString id)
        (toString db.nextUserPK) h1
    simp [linker, firstOrCreate, scanIdentity, h1, h2, hu, hi]

/-- C7 witness: with the next generated primary key 5, a failing user insert
returns the error leaving the store untouched, and a succeeding user insert
followed by a failing identity insert returns the error with user row 5
still present and no identity row. -/
theorem c7_user_creation_failures_witness :
    linker GetName 7 true ⟨[], [], 5, true, false⟩
      = (Except.error AuthError.createFailed, ⟨[], [], 5, true, false⟩) ∧
    linker GetName 7 true ⟨[], [], 5, false, true⟩
      = (Except.error AuthError.createFailed, ⟨[], [5], 6, false, true⟩) :=
  ⟨(c7_user_creation_failures 7 ⟨[], [], 5, true, false⟩ rfl).1 rfl,
   (c7_user_creation_failures 7 ⟨[], [], 5, false, true⟩ rfl).2 rfl rfl⟩

/-- C8: a state token whose header algorithm differs from the configured
signing method fails verification with the `unexpected signing method` error
from the key function (wrapped by `jwt.Parse` and returned verbatim at line
126), which is a different error value from `auth.ErrUnauthorized`. -/
theorem c8_alg_mismatch_unexpected_signing_method (tok : WireToken) (session : Session)
    (h : tok.alg ≠ session.signingMethod) :
    stateCheck tok session
      = Except.error (AuthError.jwt JWTError.unexpectedSigningMethod) ∧
    AuthError.jwt JWTError.unexpectedSigningMethod ≠ AuthError.unauthorized := by
  refine ⟨?_, by decide⟩
  simp [stateCheck, jwtParse, h]

/-- C8 witness: an HS384 token against an HS256 session is rejected with the
signing-method error. -/
theorem c8_alg_mismatch_witness :
    stateCheck
        ⟨SigningMethod.HS384, [("sub", "state")],
         methodSign SigningMethod.HS384 [("sub", "state")] "secret"⟩ sessDemo
      = Except.error (AuthError.jwt JWTError.unexpectedSigningMethod) ∧
    AuthError.jwt JWTError.unexpectedSigningMethod ≠ AuthError.unauthorized :=
  c8_alg_mismatch_unexpected_signing_method
    ⟨SigningMethod.HS384, [("sub", "state")],
     methodSign SigningMethod.HS384 [("sub", "state")] "secret"⟩ sessDemo (by decide)

/-- C9: construction from a config (including a nil config) whose clientId
or clientSecret is blank fails with a `ConfigError` instead of returning a
usable provider configuration. -/
theorem c9_blank_config_fails (c : Option Config)
    (h : (c.getD {}).clientID = "" ∨ (c.getD {}).clientSecret = "") :
    ∃ e : ConfigError, New c = Except.error e := by
  by_cases hid : (c.getD {}).clientID = ""
  · exact ⟨ConfigError.blankClientID, by simp [New, hid]⟩
  · rcases h with h | h
    · exact absurd h hid
    · exact ⟨ConfigError.blankClientSecret, by simp [New, hid, h]⟩

/-- C9 witness: a nil config fails construction. -/
theorem c9_blank_config_witness :
    ∃ e : ConfigError, New none = Except.error e :=
  c9_blank_config_fails none (Or.inl rfl)

/-- C10: for a request with a non-empty URL scheme, the redirect URL is the
raw scheme string concatenated directly with the host and the callback path,
with no `"://"` inserted. -/
theorem c10_nonempty_scheme_raw_concat (cfg : Config) (req : Request) (session : Session)
    (h : req.scheme ≠ "") :
    (OAuthConfig cfg req session).redirectURL
      = req.scheme ++ req.host ++ session.authURL "github/callback" := by
  simp [OAuthConfig, h]

/-- C10 witness: scheme `"https"` and host `"example.com"` produce
`httpsexample.com/auth/github/callback` — the scheme is glued on with no
separator. -/
theorem c10_nonempty_scheme_witness :
    (OAuthConfig cfgDemo ⟨"https", "example.com"⟩ sessDemo).redirectURL
      = "httpsexample.com/auth/github/callback" :=
  c10_nonempty_scheme_raw_concat cfgDemo ⟨"https", "example.com"⟩ sessDemo (by decide)

end Github
